import Mathlib

/-!
Shallow embedding of the `employees` Django app (ad-employee repository):
the directory client (`ad_service.py`), the authentication backend
(`backends.py`), the data model (`models.py`), request validation
(`serializers.py`) and the view workflows (`views.py`), together with
theorems settling the specification claims about them.
-/

namespace ADEmployee

/-! ## Data model (`models.py`) -/

/-- One row of the `employees` table (`models.py`, class `Employee`).
Dates and timestamps are carried as strings; they play no computational
role in any workflow modelled here. -/
structure Employee where
  employee_id : String
  full_ar_name : String
  full_en_name : String
  job_title : String
  department : String
  national_id : String
  hiring_date : String
  ad_username : String
  is_active : Bool
  deriving Repr, DecidableEq

/-- A Django `auth.User` row as the login flow uses it
(`username` plus the `is_staff` flag): the spec's SessionIdentity. -/
structure SessionIdentity where
  username : String
  is_staff : Bool
  deriving Repr, DecidableEq

/-- Field names declared on the `OutTransferLog` model
(`models.py` lines 30-36: `employee`, `from_ou`, `to_ou`, `tranferred_by`,
`transfer_date`, `note`) plus the implicit auto primary key `id`. -/
def outTransferLogModelFields : List String :=
  ["id", "employee", "from_ou", "to_ou", "tranferred_by", "transfer_date", "note"]

/-! ## Directory client (`ad_service.py`) -/

/-- Outcome of one LDAP bind attempt by the external directory:
the bind succeeds, the credentials are rejected, or the connection or
protocol fails (an exception inside `get_connection`). -/
inductive BindOutcome where
  | ok
  | badCred
  | connError
  deriving Repr, DecidableEq

/-- The external directory as an oracle: how it answers a bind for a
given principal string and password. -/
def Directory : Type := String → String → BindOutcome

/-- `ADService.get_connection` (`ad_service.py` lines 14-27): builds the
UPN `username@<domain>.local`, attempts the bind, returns the connection
on success and `None` both when the bind is refused and when any
exception is raised (the `except` clause). -/
def get_connection (dir : Directory) (domainLower : String)
    (username password : String) : Option Unit :=
  let user_dn := username ++ "@" ++ domainLower ++ ".local"
  match dir user_dn password with
  | .ok => some ()
  | .badCred => none
  | .connError => none

/-- `ADService.authenticate_user` (`ad_service.py` lines 29-35):
true exactly when `get_connection` yields a connection. -/
def authenticate_user (dir : Directory) (domainLower : String)
    (username password : String) : Bool :=
  (get_connection dir domainLower username password).isSome

/-- Python `s.replace("OU=", "")` on the character list of `s`: removes
every non-overlapping occurrence of `OU=`, scanning left to right. -/
def removeOUChars : List Char → List Char
  | 'O' :: 'U' :: '=' :: rest => removeOUChars rest
  | c :: rest => c :: removeOUChars rest
  | [] => []

/-- Python `p.replace("OU=", "")` on a string. -/
def removeOU (p : String) : String :=
  String.mk (removeOUChars p.data)

/-- Python `s.split(",")` on the character list of `s`, accumulating the
current piece in reverse. -/
def splitCommaAux : List Char → List Char → List String
  | [], acc => [String.mk acc.reverse]
  | ',' :: rest, acc => String.mk acc.reverse :: splitCommaAux rest []
  | c :: rest, acc => splitCommaAux rest (c :: acc)

/-- Python `s.split(",")`: the comma-separated pieces of `s`, in order;
the empty string splits to one empty piece. -/
def splitComma (s : String) : List String :=
  splitCommaAux s.data []

/-- Python `p.startswith("OU=")`. -/
def startsWithOU (p : String) : Bool :=
  match p.data with
  | 'O' :: 'U' :: '=' :: _ => true
  | _ => false

/-- `ADService._extract_ou` (`ad_service.py` lines 84-88): split the DN
on commas, keep the parts starting with `OU=`, strip `OU=` from each via
`replace`, return the first or the sentinel `Unknown`. -/
def extract_ou (distinguished_name : String) : String :=
  match ((splitComma distinguished_name).filter startsWithOU).map removeOU with
  | [] => "Unknown"
  | o :: _ => o

/-- One directory entry as returned by the LDAP search: the attributes
`ad_service.py` requests. Optional fields model ldap3 attributes that may
be empty (the `if entry.x else` guards); the distinguished name is always
present. -/
structure ADEntry where
  cn : Option String
  mail : Option String
  telephoneNumber : Option String
  distinguishedName : String
  department : Option String
  title : Option String
  deriving Repr, DecidableEq

/-- The dictionary `ADService.get_user_info` returns for a found entry. -/
structure DirAttrs where
  cn : String
  email : String
  phone : String
  ou : String
  distinguished_name : String
  department : String
  title : String
  deriving Repr, DecidableEq

/-- `ADService.get_user_info` (`ad_service.py` lines 37-82), with the
bind outcome and the search result supplied by the directory oracle:
`None` when the service-account bind fails or the search returns no
entries; otherwise the attribute dictionary of the first entry, with
`ou` extracted from the distinguished name. -/
def get_user_info (conn : Option Unit) (entries : List ADEntry) : Option DirAttrs :=
  match conn with
  | none => none
  | some _ =>
    match entries with
    | [] => none
    | entry :: _ =>
      let dn := entry.distinguishedName
      some
        { cn := entry.cn.getD ""
          email := entry.mail.getD ""
          phone := entry.telephoneNumber.getD ""
          ou := extract_ou dn
          distinguished_name := dn
          department := entry.department.getD ""
          title := entry.title.getD "" }

/-- The spec's reading of OU extraction, for comparison with
`extract_ou`: the first comma-separated `OU=` component of the DN with
its leading `OU=` removed, else the `Unknown` sentinel. -/
def specFirstOUComponent (distinguished_name : String) : String :=
  match (splitComma distinguished_name).filter startsWithOU with
  | [] => "Unknown"
  | p :: _ => String.mk (p.data.drop 3)

/-! ## Authentication backend (`backends.py`) -/

/-- Python truthiness of an optional string: `not x` is true when the
value is `None` or the empty string. -/
def pyFalsy : Option String → Bool
  | none => true
  | some s => s == ""

/-- `User.objects.get_or_create(username=..., defaults=dict)` with
`is_staff := false` as the only default (`views.py` lines 169-172,
`backends.py` lines 17-20): returns the found or created row, the
`created` flag, and the table after the call. Defaults are applied only
on creation, never to an existing row. -/
def get_or_create (users : List SessionIdentity) (username : String) :
    SessionIdentity × Bool × List SessionIdentity :=
  match users.find? (fun u => u.username == username) with
  | some u => (u, false, users)
  | none =>
    let u : SessionIdentity := { username := username, is_staff := false }
    (u, true, users ++ [u])

/-- `ADAuthenticationBackend.authenticate` (`backends.py` lines 8-23).
Returns the authenticated identity (or `none`), the user table after the
call, and whether a directory bind was attempted at all. -/
def backend_authenticate (dir : Directory) (domainLower : String)
    (users : List SessionIdentity)
    (username password : Option String) :
    Option SessionIdentity × List SessionIdentity × Bool :=
  if pyFalsy username || pyFalsy password then
    (none, users, false)
  else
    let u := username.getD ""
    let p := password.getD ""
    if authenticate_user dir domainLower u p then
      let (user, _, users') := get_or_create users u
      (some user, users', true)
    else
      (none, users, true)

/-! ## Request validation (`serializers.py`) -/

/-- The fixed choice set of `TransferOURequestSerializer.new_ou`
(`serializers.py` lines 63-67). -/
def validOUChoices : List String :=
  ["Accountant", "Administrative Affairs", "Camera", "Exhibit",
   "HR", "IT", "Audit", "Out Work", "Projects", "Sales",
   "Supplies", "Secretarial"]

/-- Body of a `POST .../transfer-ou/` request, fields optional as in the
raw payload. -/
structure OURequest where
  new_ou : Option String
  admin_password : Option String
  notes : Option String
  deriving Repr, DecidableEq

/-- `TransferOURequestSerializer.is_valid()`: `new_ou` must be present
and one of the fixed choices, `admin_password` present and non-blank
(a required DRF `CharField` rejects blank); `notes` is optional and may
be blank. -/
def transferRequestValid (r : OURequest) : Bool :=
  (match r.new_ou with
   | some ou => validOUChoices.contains ou
   | none => false)
  && (match r.admin_password with
      | some p => p != ""
      | none => false)

/-- Body of a login request. -/
structure LoginRequest where
  username : Option String
  password : Option String
  deriving Repr, DecidableEq

/-- `LoginSerializer.is_valid()`: both fields required non-blank
`CharField`s (`serializers.py` lines 57-60). -/
def loginRequestValid (r : LoginRequest) : Bool :=
  (match r.username with
   | some u => u != ""
   | none => false)
  && (match r.password with
      | some p => p != ""
      | none => false)

/-! ## Login view (`views.py`, `LoginView.post`) -/

/-- The response of `LoginView.post`, by status class. The 200 payload
carries the `user` summary built from the Employee row. -/
inductive LoginResponse where
  | badRequest400
  | invalidCredentials401
  | employeeNotFound404
  | ok200 (username employee_id full_name : String)
  deriving Repr, DecidableEq

/-- `LoginView.post` (`views.py` lines 146-184): validate, authenticate
against AD, look up the Employee by `ad_username`, get-or-create the
Django `User`, issue tokens (token contents not modelled). Returns the
response and the user table after the call. -/
def login_post (dir : Directory) (domainLower : String)
    (employees : List Employee) (users : List SessionIdentity)
    (req : LoginRequest) : LoginResponse × List SessionIdentity :=
  if ¬ loginRequestValid req then
    (.badRequest400, users)
  else if ¬ authenticate_user dir domainLower (req.username.getD "")
      (req.password.getD "") then
    (.invalidCredentials401, users)
  else
    match employees.find? (fun e => e.ad_username == req.username.getD "") with
    | none => (.employeeNotFound404, users)
    | some employee =>
      (.ok200 (req.username.getD "") employee.employee_id employee.full_en_name,
       (get_or_create users (req.username.getD "")).2.2)

/-! ## Profile view (`views.py`, `EmployeeProfileView.get`) -/

/-- The `ad_info` field of a profile response: either the fetched AD
dictionary or the empty object `\x7b\x7d`. -/
inductive AdInfoField where
  | attrs (a : DirAttrs)
  | emptyDict
  deriving Repr, DecidableEq

/-- The response of `EmployeeProfileView.get`. -/
inductive ProfileResponse where
  | notFound404
  | ok200 (database_info : Employee) (ad_info : AdInfoField)
  deriving Repr, DecidableEq

/-- `EmployeeProfileView.get` (`views.py` lines 296-315): look up the
Employee by the session username, fetch AD attributes, and assemble
`database_info` (the serialized local row) with `ad_info` defaulted to
the empty object when the fetch returned `None`. `adResult` is the value
`ad_service.get_user_info(username)` produced. -/
def profile_get (employees : List Employee) (username : String)
    (adResult : Option DirAttrs) : ProfileResponse :=
  match employees.find? (fun e => e.ad_username == username) with
  | none => .notFound404
  | some employee =>
    .ok200 employee
      (match adResult with
       | some a => .attrs a
       | none => .emptyDict)

/-! ## OU transfer view (`views.py`, `OUTransferView.post`) -/

/-- A value assigned to a model field at creation time. -/
inductive FieldVal where
  | str (s : String)
  | boolVal (b : Bool)
  | empRef (employee_id : String)
  deriving Repr, DecidableEq

/-- A freshly created model instance: the keyword-argument assignment
`field name ↦ value` the caller passed. -/
abbrev CreatedRow : Type := List (String × FieldVal)

/-- Django `Model.objects.create(**kwargs)` semantics: `Model.__init__`
raises `TypeError` as soon as some keyword argument names no declared
field of the model; only if every name is valid is a row built and
inserted. On error the table is unchanged. -/
def djangoCreate (modelFields : List String) (kwargs : List (String × FieldVal))
    (table : List CreatedRow) : Except String (List CreatedRow) :=
  if kwargs.all (fun kv => modelFields.contains kv.1) then
    .ok (table ++ [kwargs])
  else
    .error "TypeError"

/-- The response of `OUTransferView.post`. `unhandledTypeError` is an
exception escaping the view (no matching `except` clause), which the
framework turns into a 500 with no further view code running. -/
inductive TransferResponse where
  | notFound404
  | badRequest400
  | fetchError500
  | ok200 (message : String)
  | moveFailed400 (message : String)
  | unhandledTypeError
  deriving Repr, DecidableEq

/-- The observable outcome of one `OUTransferView.post` invocation: the
response, the audit table afterwards, and whether the directory
attribute fetch and the directory move were invoked. -/
structure TransferResult where
  response : TransferResponse
  logs : List CreatedRow
  fetchCalled : Bool
  moveCalled : Bool
  deriving Repr, DecidableEq

/-- `OUTransferView.post` (`views.py` lines 609-662). `fetch` is the
directory oracle behind `ad_service.get_user_info` (keyed by the
employee's `ad_username`); `move` is the oracle behind
`ad_service.move_user_to_ou`, returning the `(success, message)` pair.
The audit insert is the literal call at lines 644-651: keyword arguments
`employee`, `from_ou`, `to_ou`, `transferred_by`, `notes`, `success`
against the `OutTransferLog` model. -/
def ou_transfer_post (employees : List Employee) (employee_id : String)
    (req : OURequest) (adminUsername : String)
    (fetch : String → Option DirAttrs)
    (move : String → String → String → String → Bool × String)
    (logs : List CreatedRow) : TransferResult :=
  match employees.find? (fun e => e.employee_id == employee_id) with
  | none =>
    { response := .notFound404, logs := logs
      fetchCalled := false, moveCalled := false }
  | some employee =>
    if ¬ transferRequestValid req then
      { response := .badRequest400, logs := logs
        fetchCalled := false, moveCalled := false }
    else
      let new_ou := req.new_ou.getD ""
      let admin_password := req.admin_password.getD ""
      let notes := req.notes.getD ""
      match fetch employee.ad_username with
      | none =>
        { response := .fetchError500, logs := logs
          fetchCalled := true, moveCalled := false }
      | some current_info =>
        let current_ou := current_info.ou
        let (success, message) :=
          move employee.ad_username new_ou adminUsername admin_password
        match djangoCreate outTransferLogModelFields
            [("employee", .empRef employee.employee_id),
             ("from_ou", .str current_ou),
             ("to_ou", .str new_ou),
             ("transferred_by", .str adminUsername),
             ("notes", .str notes),
             ("success", .boolVal success)] logs with
        | .error _ =>
          { response := .unhandledTypeError, logs := logs
            fetchCalled := true, moveCalled := true }
        | .ok logs' =>
          if success then
            { response := .ok200 message, logs := logs'
              fetchCalled := true, moveCalled := true }
          else
            { response := .moveFailed400 message, logs := logs'
              fetchCalled := true, moveCalled := true }

/-! ## Audit log listing (`views.py`, `OUTransferLogViewSet`) -/

/-- One stored row of the `OutTransferLog` table as the model declares
it (`models.py` lines 30-36). `employee` holds the referenced Employee's
primary key, which is its `employee_id`; `transfer_date` is the
auto-set creation date, encoded as a day number so that later rows have
larger dates. -/
structure OutTransferLogRow where
  id : Nat
  employee : String
  from_ou : String
  to_ou : String
  tranferred_by : String
  transfer_date : Nat
  note : String
  deriving Repr, DecidableEq

/-- `OUTransferLogViewSet.get_queryset` (`views.py` lines 720-725) over
a table held in insertion order: `OutTransferLog.objects.all()` — the
model declares no `Meta.ordering` and the view adds no `order_by`, so
the rows come back in the table's own (insertion) order — then
`filter(employee__employee_id=...)` only when the query parameter is
present and truthy (Python `if employee_id:`). -/
def transfer_log_queryset (logs : List OutTransferLogRow)
    (param : Option String) : List OutTransferLogRow :=
  match param with
  | none => logs
  | some eid =>
    if eid == "" then logs
    else logs.filter (fun r => r.employee == eid)

/-! ## Concrete fixtures used to evaluate the workflows -/

/-- A small directory stub: `alice`/`pw1` and `ghost`/`pw2` bind
successfully, the password `down` makes the connection fail, anything
else is rejected as bad credentials. -/
def dirStub : Directory := fun user_dn pw =>
  if user_dn == "alice@example.local" && pw == "pw1" then .ok
  else if user_dn == "ghost@example.local" && pw == "pw2" then .ok
  else if pw == "down" then .connError
  else .badCred

/-- An employee row with directory username `john.doe`. -/
def empJohn : Employee :=
  { employee_id := "EMP-1", full_ar_name := "John-ar", full_en_name := "John Doe"
    job_title := "Developer", department := "IT", national_id := "12345678901234"
    hiring_date := "2020-01-01", ad_username := "john.doe", is_active := true }

/-- An employee row with directory username `alice`. -/
def empAlice : Employee :=
  { employee_id := "EMP-2", full_ar_name := "Alice-ar", full_en_name := "Alice Smith"
    job_title := "Manager", department := "HR", national_id := "98765432109876"
    hiring_date := "2019-05-01", ad_username := "alice", is_active := true }

/-- A directory entry whose DN carries one `OU=` component. -/
def entryEng : ADEntry :=
  { cn := some "John Doe", mail := some "john.doe@example.local"
    telephoneNumber := none
    distinguishedName := "CN=John Doe,OU=Engineering,DC=example,DC=local"
    department := some "Software", title := none }

/-- The attribute dictionary `get_user_info` builds for `entryEng`. -/
def attrsEng : DirAttrs :=
  { cn := "John Doe", email := "john.doe@example.local", phone := ""
    ou := "Engineering"
    distinguished_name := "CN=John Doe,OU=Engineering,DC=example,DC=local"
    department := "Software", title := "" }

/-- A transfer request whose target OU `IT` is in the allowed set. -/
def reqIT : OURequest :=
  { new_ou := some "IT", admin_password := some "pw", notes := some "promotion" }

/-- A transfer request whose target OU `Engineering` is not in the
allowed choice set. -/
def reqBadOU : OURequest :=
  { new_ou := some "Engineering", admin_password := some "pw", notes := none }

/-- A login request for `alice`. -/
def reqAlice : LoginRequest :=
  { username := some "alice", password := some "pw1" }

/-- An older stored audit row (inserted first, creation day 100). -/
def logRowOld : OutTransferLogRow :=
  { id := 1, employee := "EMP-1", from_ou := "IT", to_ou := "HR"
    tranferred_by := "admin", transfer_date := 100, note := "" }

/-- A newer stored audit row (inserted second, creation day 200). -/
def logRowNew : OutTransferLogRow :=
  { id := 2, employee := "EMP-1", from_ou := "HR", to_ou := "Sales"
    tranferred_by := "admin", transfer_date := 200, note := "" }

/-! ## Helper lemmas -/

/-- `get_or_create` with a row already present returns that row, the
`created` flag false, and the table untouched. -/
lemma get_or_create_stable (users : List SessionIdentity) (un : String)
    (x : SessionIdentity)
    (h : users.find? (fun v => v.username == un) = some x) :
    get_or_create users un = (x, false, users) := by
  unfold get_or_create
  rw [h]

/-- After any `get_or_create`, the table contains a row with the
requested username. -/
lemma get_or_create_found_after (users : List SessionIdentity) (un : String) :
    ∃ x, ((get_or_create users un).2.2).find? (fun v => v.username == un) = some x := by
  unfold get_or_create
  cases h : users.find? (fun v => v.username == un) with
  | some u => exact ⟨u, by simpa using h⟩
  | none =>
    refine ⟨⟨un, false⟩, ?_⟩
    simp [List.find?_append, h]

/-! ## Claim theorems -/

/-- C5: for every (username, password) pair, `authenticate_user` returns
true exactly when the directory bind on the constructed principal
succeeds, and returns false for rejected credentials and for every
connection or protocol failure — the fail-closed policy. -/
theorem authenticate_user_fail_closed (dir : Directory)
    (domainLower username password : String) :
    (authenticate_user dir domainLower username password = true ↔
      dir (username ++ "@" ++ domainLower ++ ".local") password = .ok) ∧
    (dir (username ++ "@" ++ domainLower ++ ".local") password ≠ .ok →
      authenticate_user dir domainLower username password = false) := by
  unfold authenticate_user get_connection
  cases h : dir (username ++ "@" ++ domainLower ++ ".local") password <;> simp [h]

/-- Witness for C5: with the stub directory, the connection-failure
password `down` yields `false`, not an exception outcome. -/
theorem authenticate_user_fail_closed_witness :
    authenticate_user dirStub "example" "alice" "down" = false :=
  (authenticate_user_fail_closed dirStub "example" "alice" "down").2 (by decide)

/-- C6 counterexample: on the DN `CN=A,OU=xOU=y,DC=z` the code reports
the OU `xy`, while the first `OU=` component's value is `xOU=y` — the
`replace`-based strip removes every `OU=` occurrence, not only the
leading one, so the reported OU is not the first `OU=` component. -/
theorem extract_ou_not_first_component :
    extract_ou "CN=A,OU=xOU=y,DC=z" = "xy" ∧
    specFirstOUComponent "CN=A,OU=xOU=y,DC=z" = "xOU=y" ∧
    ¬ extract_ou "CN=A,OU=xOU=y,DC=z" =
        specFirstOUComponent "CN=A,OU=xOU=y,DC=z" := by
  decide

/-- C6 (amended): for every existing directory entry, the attribute
fetch reports an OU string that is never absent: it equals the first
comma-separated `OU=` component of the DN with every occurrence of the
substring `OU=` removed, and equals the sentinel `Unknown` whenever no
component of the DN starts with `OU=`. -/
theorem get_user_info_ou_amended (entry : ADEntry) (entries : List ADEntry)
    (attrs : DirAttrs)
    (h : get_user_info (some ()) (entry :: entries) = some attrs) :
    attrs.ou = extract_ou entry.distinguishedName ∧
    ((splitComma entry.distinguishedName).filter startsWithOU = [] →
      attrs.ou = "Unknown") ∧
    (∀ p rest, (splitComma entry.distinguishedName).filter startsWithOU = p :: rest →
      attrs.ou = removeOU p) := by
  unfold get_user_info at h
  injection h with h'
  subst h'
  refine ⟨rfl, ?_, ?_⟩
  · intro hnil
    show extract_ou entry.distinguishedName = "Unknown"
    unfold extract_ou
    rw [hnil, List.map_nil]
  · intro p rest hcons
    show extract_ou entry.distinguishedName = removeOU p
    unfold extract_ou
    rw [hcons, List.map_cons]

/-- Witness for C6 (amended): for the concrete entry whose DN is
`CN=John Doe,OU=Engineering,DC=example,DC=local`, the fetch succeeds and
reports the OU obtained from the component `OU=Engineering`. -/
theorem get_user_info_ou_amended_witness :
    attrsEng.ou = removeOU "OU=Engineering" ∧
    get_user_info (some ()) [entryEng] = some attrsEng :=
  ⟨(get_user_info_ou_amended entryEng [] attrsEng (by decide)).2.2
      "OU=Engineering" [] (by decide),
   by decide⟩

/-- C7: for a profile request by a user whose Employee row exists, a
failed or absent directory fetch still yields a success response whose
`database_info` is exactly the stored Employee row and whose `ad_info`
is the empty object; moreover `database_info` is the same stored row for
every possible directory outcome. -/
theorem profile_degrades_gracefully (employees : List Employee)
    (username : String) (employee : Employee)
    (hfind : employees.find? (fun e => e.ad_username == username) = some employee) :
    profile_get employees username none = .ok200 employee .emptyDict ∧
    ∀ adResult : Option DirAttrs,
      ∃ ai, profile_get employees username adResult = .ok200 employee ai := by
  unfold profile_get
  rw [hfind]
  exact ⟨rfl, fun adResult => ⟨_, rfl⟩⟩

/-- Witness for C7: employee `EMP-1` with the directory down yields the
local row unchanged and an empty `ad_info`. -/
theorem profile_degrades_gracefully_witness :
    profile_get [empJohn] "john.doe" none = .ok200 empJohn .emptyDict :=
  (profile_degrades_gracefully [empJohn] "john.doe" empJohn (by decide)).1

/-- C10: when the username or the password is missing or empty (Python
falsy), the AD backend returns no user, leaves the user table unchanged,
and attempts no directory bind. -/
theorem backend_auth_missing_credentials (dir : Directory) (domainLower : String)
    (users : List SessionIdentity) (username password : Option String)
    (h : pyFalsy username = true ∨ pyFalsy password = true) :
    backend_authenticate dir domainLower users username password = (none, users, false) := by
  unfold backend_authenticate
  rcases h with h | h <;> simp [h]

/-- Witness for C10: an empty username with a real password yields no
user and no bind. -/
theorem backend_auth_missing_credentials_witness :
    backend_authenticate dirStub "example" [] (some "") (some "pw1") = (none, [], false) :=
  backend_auth_missing_credentials dirStub "example" [] (some "") (some "pw1")
    (Or.inl (by decide))

/-- C2: a transfer request whose target OU is outside the fixed choice
set is answered with a client error (404 when the employee is unknown,
otherwise the 400 validation rejection) before any directory call —
neither the attribute fetch nor the move runs — and the audit table is
unchanged. -/
theorem transfer_unknown_ou_rejected (employees : List Employee)
    (employee_id : String) (req : OURequest) (adminUsername : String)
    (fetch : String → Option DirAttrs)
    (move : String → String → String → String → Bool × String)
    (logs : List CreatedRow) (ou : String)
    (hou : req.new_ou = some ou)
    (hbad : validOUChoices.contains ou = false) :
    ((ou_transfer_post employees employee_id req adminUsername fetch move logs).response =
        .notFound404 ∨
     (ou_transfer_post employees employee_id req adminUsername fetch move logs).response =
        .badRequest400) ∧
    (ou_transfer_post employees employee_id req adminUsername fetch move logs).fetchCalled =
      false ∧
    (ou_transfer_post employees employee_id req adminUsername fetch move logs).moveCalled =
      false ∧
    (ou_transfer_post employees employee_id req adminUsername fetch move logs).logs = logs := by
  have hval : transferRequestValid req = false := by
    unfold transferRequestValid
    rw [hou]
    show (validOUChoices.contains ou && _) = false
    rw [hbad]
    exact Bool.false_and _
  unfold ou_transfer_post
  cases hfind : employees.find? (fun e => e.employee_id == employee_id) <;> simp [hval]

/-- Witness for C2: requesting the OU `Engineering`, which is not among
the twelve allowed choices, for the existing employee `EMP-1`. -/
theorem transfer_unknown_ou_rejected_witness :
    ((ou_transfer_post [empJohn] "EMP-1" reqBadOU "admin" (fun _ => none)
        (fun _ _ _ _ => (false, "")) []).response = .notFound404 ∨
     (ou_transfer_post [empJohn] "EMP-1" reqBadOU "admin" (fun _ => none)
        (fun _ _ _ _ => (false, "")) []).response = .badRequest400) ∧
    (ou_transfer_post [empJohn] "EMP-1" reqBadOU "admin" (fun _ => none)
        (fun _ _ _ _ => (false, "")) []).fetchCalled = false ∧
    (ou_transfer_post [empJohn] "EMP-1" reqBadOU "admin" (fun _ => none)
        (fun _ _ _ _ => (false, "")) []).moveCalled = false ∧
    (ou_transfer_post [empJohn] "EMP-1" reqBadOU "admin" (fun _ => none)
        (fun _ _ _ _ => (false, "")) []).logs = [] :=
  transfer_unknown_ou_rejected [empJohn] "EMP-1" reqBadOU "admin" (fun _ => none)
    (fun _ _ _ _ => (false, "")) [] "Engineering" rfl (by decide)

/-- C3: when the employee exists, the body is valid, and the pre-move
attribute fetch returns absent, the invocation ends with the distinct
fetch-failure 500 outcome, the move is never attempted, and the audit
table is unchanged. -/
theorem transfer_fetch_failure_no_audit (employees : List Employee)
    (employee_id : String) (req : OURequest) (adminUsername : String)
    (fetch : String → Option DirAttrs)
    (move : String → String → String → String → Bool × String)
    (logs : List CreatedRow) (employee : Employee)
    (hfind : employees.find? (fun e => e.employee_id == employee_id) = some employee)
    (hvalid : transferRequestValid req = true)
    (hfetch : fetch employee.ad_username = none) :
    ou_transfer_post employees employee_id req adminUsername fetch move logs =
      { response := .fetchError500, logs := logs
        fetchCalled := true, moveCalled := false } := by
  unfold ou_transfer_post
  rw [hfind]
  simp [hvalid, hfetch]

/-- Witness for C3: employee `EMP-1`, valid target OU `IT`, directory
fetch returning absent. -/
theorem transfer_fetch_failure_no_audit_witness :
    ou_transfer_post [empJohn] "EMP-1" reqIT "admin" (fun _ => none)
        (fun _ _ _ _ => (true, "User moved successfully")) [] =
      { response := .fetchError500, logs := []
        fetchCalled := true, moveCalled := false } :=
  transfer_fetch_failure_no_audit [empJohn] "EMP-1" reqIT "admin" (fun _ => none)
    (fun _ _ _ _ => (true, "User moved successfully")) [] empJohn
    (by decide) (by decide) rfl

/-- C1 (code evaluated at the failing input): whenever a transfer
invocation reaches the directory-move step — the employee exists, the
body is valid, and the pre-move fetch succeeded — the audit insert
raises (its keyword arguments `transferred_by`, `notes`, `success` name
no `OutTransferLog` field), so the invocation ends in the unhandled
exception outcome and zero audit records are created, for either value
of the move's success flag. -/
theorem transfer_reaching_move_creates_no_audit (employees : List Employee)
    (employee_id : String) (req : OURequest) (adminUsername : String)
    (fetch : String → Option DirAttrs)
    (move : String → String → String → String → Bool × String)
    (logs : List CreatedRow) (employee : Employee) (info : DirAttrs)
    (hfind : employees.find? (fun e => e.employee_id == employee_id) = some employee)
    (hvalid : transferRequestValid req = true)
    (hfetch : fetch employee.ad_username = some info) :
    (ou_transfer_post employees employee_id req adminUsername fetch move logs).response =
      .unhandledTypeError ∧
    (ou_transfer_post employees employee_id req adminUsername fetch move logs).logs = logs := by
  unfold ou_transfer_post
  rw [hfind]
  rcases hmv : move employee.ad_username (req.new_ou.getD "") adminUsername
      (req.admin_password.getD "") with ⟨s, m⟩
  simp [hvalid, hfetch, hmv, djangoCreate]
  rw [if_neg (by decide)]
  exact ⟨rfl, rfl⟩

/-- Witness for C1: employee `EMP-1`, valid target OU `IT`, a fetch that
succeeds and a move that reports success — still no audit row. -/
theorem transfer_reaching_move_creates_no_audit_witness :
    (ou_transfer_post [empJohn] "EMP-1" reqIT "admin" (fun _ => some attrsEng)
        (fun _ _ _ _ => (true, "User moved successfully")) []).response =
      .unhandledTypeError ∧
    (ou_transfer_post [empJohn] "EMP-1" reqIT "admin" (fun _ => some attrsEng)
        (fun _ _ _ _ => (true, "User moved successfully")) []).logs = [] :=
  transfer_reaching_move_creates_no_audit [empJohn] "EMP-1" reqIT "admin"
    (fun _ => some attrsEng) (fun _ _ _ _ => (true, "User moved successfully")) []
    empJohn attrsEng (by decide) (by decide) rfl

/-- C9 (code evaluated at the failing input): the audit listing applies
no ordering — with an older row inserted before a newer one, both the
unfiltered and the employee-filtered listings return the older row
first, not most-recent-first; the employee filter itself keeps only the
matching rows. -/
theorem transfer_log_listing_not_most_recent_first :
    transfer_log_queryset [logRowOld, logRowNew] none = [logRowOld, logRowNew] ∧
    transfer_log_queryset [logRowOld, logRowNew] (some "EMP-1") =
      [logRowOld, logRowNew] ∧
    logRowOld.transfer_date < logRowNew.transfer_date := by
  decide

/-- C4: for a well-formed login request, failed directory
authentication yields the uniform 401 invalid-credentials outcome with
the user table untouched, while successful directory authentication
without a matching Employee row yields the distinct 404
employee-record-not-found outcome, also with the table untouched. -/
theorem login_error_branches (dir : Directory) (domainLower : String)
    (employees : List Employee) (users : List SessionIdentity)
    (req : LoginRequest) (u p : String)
    (hu : req.username = some u) (hp : req.password = some p)
    (hu2 : (u == "") = false) (hp2 : (p == "") = false) :
    (authenticate_user dir domainLower u p = false →
      login_post dir domainLower employees users req =
        (.invalidCredentials401, users)) ∧
    (authenticate_user dir domainLower u p = true →
      employees.find? (fun e => e.ad_username == u) = none →
      login_post dir domainLower employees users req =
        (.employeeNotFound404, users)) := by
  have hval : loginRequestValid req = true := by
    unfold loginRequestValid
    rw [hu, hp]
    show (u != "" && p != "") = true
    simp [bne, hu2, hp2]
  constructor
  · intro hauth
    unfold login_post
    simp [hval, hu, hp, hauth]
  · intro hauth hfind
    unfold login_post
    simp [hval, hu, hp, hauth, hfind]

/-- Witness for C4: `ghost`/`pw2` passes directory authentication but
has no Employee row, producing the 404 outcome. -/
theorem login_error_branches_witness :
    login_post dirStub "example" [empJohn] []
        { username := some "ghost", password := some "pw2" } =
      (.employeeNotFound404, []) :=
  (login_error_branches dirStub "example" [empJohn] []
      { username := some "ghost", password := some "pw2" } "ghost" "pw2"
      rfl rfl rfl rfl).2 (by decide) (by decide)

/-- C8: once a login has succeeded and produced the user table
`users'`, submitting the same login again returns the same response and
leaves `users'` exactly as it is — no second SessionIdentity row is
created and no existing identity's flags are overwritten. -/
theorem login_twice_idempotent (dir : Directory) (domainLower : String)
    (employees : List Employee) (users : List SessionIdentity)
    (req : LoginRequest) (u eid name : String) (users' : List SessionIdentity)
    (h : login_post dir domainLower employees users req = (.ok200 u eid name, users')) :
    login_post dir domainLower employees users' req = (.ok200 u eid name, users') := by
  unfold login_post at h ⊢
  by_cases hval : loginRequestValid req = true
  · rw [if_neg (by simpa using hval)] at h ⊢
    by_cases hauth : authenticate_user dir domainLower (req.username.getD "")
        (req.password.getD "") = true
    · rw [if_neg (by simpa using hauth)] at h ⊢
      revert h
      cases hfind : employees.find?
          (fun e => e.ad_username == req.username.getD "") with
      | none =>
        intro h
        simp at h
      | some employee =>
        intro h
        simp [Prod.ext_iff] at h
        obtain ⟨⟨h1, h2, h3⟩, h4⟩ := h
        obtain ⟨x, hx⟩ := get_or_create_found_after users (req.username.getD "")
        rw [h4] at hx
        show (LoginResponse.ok200 (req.username.getD "") employee.employee_id
            employee.full_en_name,
          (get_or_create users' (req.username.getD "")).2.2) =
          (LoginResponse.ok200 u eid name, users')
        rw [get_or_create_stable users' (req.username.getD "") x hx]
        simp [h1, h2, h3]
    · rw [if_pos (by simpa using hauth)] at h
      simp at h
  · rw [if_pos (by simpa using hval)] at h
    simp at h

/-- Witness for C8: after `alice`'s first successful login created her
identity row, logging in again returns the same response and the same
one-row table. -/
theorem login_twice_idempotent_witness :
    login_post dirStub "example" [empAlice]
        [{ username := "alice", is_staff := false }] reqAlice =
      (.ok200 "alice" "EMP-2" "Alice Smith",
       [{ username := "alice", is_staff := false }]) :=
  login_twice_idempotent dirStub "example" [empAlice] [] reqAlice
    "alice" "EMP-2" "Alice Smith" [{ username := "alice", is_staff := false }]
    (by decide)

end ADEmployee
